import Mathlib

/-!
Verification development for the Phara chatbot core
(guardrails, provider adapters, configuration switcher, orchestrator).

The Python source is embedded shallowly:

* strings are `String` / `List Char`; Python `str.lower()` is modelled by
  `asciiLower` (ASCII case mapping, adequate for the fixed ASCII keyword and
  pattern sets of the source);
* the regular expressions of guardrails.py are fixed word-alternation patterns
  wrapped with word boundaries, one of them followed by a negative lookahead;
  their semantics is spelled out directly: a search succeeds iff some position
  admits a word-boundary occurrence of one of the alternatives (and, for the
  lookahead pattern, dot-star-data fails to match after the occurrence, where
  dot does not cross a newline);
* `random.choice(pool)` is modelled by an explicit selector argument
  `rng : Nat`, picking `pool[rng % len(pool)]`: quantifying over `rng` covers
  every outcome the Python random source can produce;
* fallible calls into external services are modelled by `Except String`-valued
  oracles passed as arguments; exceptions caught by `try/except Exception`
  blocks correspond to the `.error` case.
-/

/-! ### ASCII string model (Python `str.lower`, substring containment) -/

/-- ASCII case mapping of one character, modelling Python `str.lower` on the
ASCII range used by all fixed keyword/pattern sets of the source. -/
def asciiLowerChar (c : Char) : Char :=
  if 'A' ≤ c ∧ c ≤ 'Z' then Char.ofNat (c.toNat + 32) else c

/-- `user_input.lower()` on a character list. -/
def asciiLower (s : List Char) : List Char := s.map asciiLowerChar

/-- Python regex `\w` on the ASCII range: letter, digit or underscore. -/
def isWordChar (c : Char) : Bool :=
  ('a' ≤ c && c ≤ 'z') || ('A' ≤ c && c ≤ 'Z') || ('0' ≤ c && c ≤ '9') || c = '_'

/-- Python `sub in s`: `sub` occurs as a contiguous substring of `s`. -/
def listContainsSub (s sub : List Char) : Bool :=
  (List.range (s.length + 1)).any fun i => sub.isPrefixOf (s.drop i)

/-! ### Regex semantics for the guardrail patterns -/

/-- The pattern `\b w \b` matches at position `i` of `s`: `w` is a (nonempty)
prefix of `s.drop i`, the character before position `i` (if any) is not a word
character, and the character after the occurrence (if any) is not a word
character.  This is exactly Python `re`'s word-boundary semantics for an
alternative consisting of word characters. -/
def wordAt (s w : List Char) (i : Nat) : Bool :=
  decide (w ≠ []) && w.isPrefixOf (s.drop i)
    && (decide (i = 0) || !isWordChar (s.getD (i - 1) ' '))
    && (decide (s.length ≤ i + w.length) || !isWordChar (s.getD (i + w.length) ' '))

/-- `re.search(r'\b(w1|w2|...)\b', s)` succeeds: some position of `s` carries a
word-boundary occurrence of one of the alternatives. -/
def searchWords (s : List Char) (ws : List (List Char)) : Bool :=
  (List.range (s.length + 1)).any fun i => ws.any fun w => wordAt s w i

/-- `.*target` matches a prefix of `rest` (regex `.` does not cross a
newline): `target` occurs in `rest` with no newline strictly before it. -/
def dotstarThen (rest target : List Char) : Bool :=
  (List.range (rest.length + 1)).any fun j =>
    (rest.take j).all (fun c => c != '\n') && target.isPrefixOf (rest.drop j)

/-- `re.search(r'\b(w1|...)\b(?!.*target)', s)` succeeds: some position carries
a word-boundary occurrence of an alternative that is *not* followed by
`.*target`. -/
def searchWordsNotFollowedBy (s : List Char) (ws : List (List Char))
    (target : List Char) : Bool :=
  (List.range (s.length + 1)).any fun i => ws.any fun w =>
    wordAt s w i && !(dotstarThen (s.drop (i + w.length)) target)

/-! ### guardrails.py — `DataGuardrails` -/

/-- `self.data_keywords` of guardrails.py. -/
def data_keywords : List String :=
  ["data", "column", "row", "table", "csv", "excel", "file",
   "analyze", "analysis", "statistics", "stats", "summary",
   "count", "sum", "average", "mean", "median", "max", "min",
   "trend", "pattern", "correlation", "distribution",
   "filter", "sort", "group", "aggregate", "pivot",
   "chart", "graph", "plot", "visualization",
   "missing", "null", "duplicate", "unique",
   "sales", "revenue", "product", "customer", "region"]

/-- The alternation word lists of the six off-topic patterns of
`self.off_topic_patterns` that have no lookahead (patterns 1-4, 6, 7). -/
def off_topic_simple_words : List (List String) :=
  [["weather", "news", "politics", "sports", "entertainment", "movies", "music"],
   ["recipe", "cooking", "food", "restaurant"],
   ["travel", "vacation", "hotel", "flight"],
   ["health", "medical", "doctor", "medicine"],
   ["personal", "family", "relationship", "dating"],
   ["joke", "funny", "humor", "meme"]]

/-- The alternatives of the fifth off-topic pattern,
`r'\b(programming|code|software|development)\b(?!.*data)'`. -/
def prog_words : List String := ["programming", "code", "software", "development"]

/-- `self.redirect_responses` of guardrails.py. -/
def redirect_responses : List String :=
  ["I\x27m here to help you analyze and understand your data files. Let\x27s focus on the data you\x27ve loaded.",
   "I specialize in data analysis. Would you like to explore the information in your files instead?",
   "Let\x27s keep our conversation focused on your data. What would you like to know about the loaded files?",
   "I\x27m designed to help with data analysis and file exploration. How can I assist you with your data?"]

/-- `self.no_data_responses` of guardrails.py. -/
def no_data_responses : List String :=
  ["I don\x27t see any data files loaded yet. Would you like to load a file from the data folder?",
   "To get started, please load a data file using the \x27load\x27 command. I can then help you analyze it.",
   "No data files are currently loaded. Use \x27files\x27 to see available files or \x27load <filename>\x27 to load one."]

/-- Some lookahead-free off-topic pattern fires on the (lowered) input. -/
def simpleOffTopicMatch (l : List Char) : Bool :=
  off_topic_simple_words.any fun g => searchWords l (g.map String.toList)

/-- The programming pattern
`\b(programming|code|software|development)\b(?!.*data)` fires on the (lowered)
input: some word-boundary occurrence of a programming term is not followed by
`.*data`. -/
def progOffTopicMatch (l : List Char) : Bool :=
  searchWordsNotFollowedBy l (prog_words.map String.toList) ("data".toList)

/-- The loop over `self.off_topic_patterns` finds a match; the source checks
the seven patterns in order but returns the same result for any of them, so
the disjunction is the faithful outcome. -/
def offTopicMatch (l : List Char) : Bool :=
  simpleOffTopicMatch l || progOffTopicMatch l

/-- `random.choice(pool)` with an explicit selector: picks
`pool[rng % len(pool)]`.  Every element of a nonempty pool is the value for
some `rng`, so universally quantifying over `rng` covers all random draws. -/
def pyChoice (pool : List String) (rng : Nat) : String :=
  pool.getD (rng % pool.length) ""

/-- The bootstrapping keywords of rule 1 of `check_query_relevance`. -/
def bootstrapKeywords : List String := ["load", "file", "data"]

/-- `user_input.lower()` as the character list the guardrail rules scan. -/
def pyLower (s : String) : List Char := asciiLower s.toList

/-- `DataGuardrails.check_query_relevance` of guardrails.py.
`loadedFiles` stands for `self.file_processor.list_loaded_files()`; `rng`
selects the random pool element.  Returns `(is_relevant, redirect_message)`. -/
def check_query_relevance (loadedFiles : List String) (rng : Nat)
    (userInput : String) : Bool × Option String :=
  let lower := pyLower userInput
  if loadedFiles.isEmpty
      && !(bootstrapKeywords.any fun k => listContainsSub lower k.toList) then
    (false, some (pyChoice no_data_responses rng))
  else if offTopicMatch lower then
    (false, some (pyChoice redirect_responses rng))
  else if (data_keywords.any fun k => listContainsSub lower k.toList)
      || !loadedFiles.isEmpty then
    (true, none)
  else
    (false, some (pyChoice redirect_responses rng))

/-! ### config.py — `AIProvider`, `ModelConfig`, `Config` -/

/-- The `AIProvider` enumeration of config.py. -/
inductive AIProvider where
  | gemini
  | openai
  | anthropic
  | ollama
deriving DecidableEq, Repr

/-- `provider.value`: the string value of the enum member. -/
def AIProvider.value : AIProvider → String
  | .gemini => "gemini"
  | .openai => "openai"
  | .anthropic => "anthropic"
  | .ollama => "ollama"

/-- `ModelConfig` of config.py.  `temperature` is the literal configuration
value (never computed with), modelled as a rational. -/
structure ModelConfig where
  provider : AIProvider
  model_name : String
  api_key : Option String := none
  base_url : Option String := none
  max_tokens : Option Nat := none
  temperature : ℚ := 7 / 10
deriving DecidableEq, Repr

/-- `Config.MODEL_CONFIGS` of config.py: the fixed configuration of each
provider (every enum member is a key of the dictionary, so lookup is total). -/
def MODEL_CONFIGS : AIProvider → ModelConfig
  | .gemini =>
      { provider := .gemini, model_name := "gemini-pro",
        api_key := some "your-gemini-api-key-here",
        temperature := 7 / 10, max_tokens := some 2048 }
  | .openai =>
      { provider := .openai, model_name := "gpt-3.5-turbo",
        api_key := some "your-openai-api-key-here",
        temperature := 7 / 10, max_tokens := some 2048 }
  | .anthropic =>
      { provider := .anthropic, model_name := "claude-3-sonnet-20240229",
        api_key := some "your-anthropic-api-key-here",
        temperature := 7 / 10, max_tokens := some 2048 }
  | .ollama =>
      { provider := .ollama, model_name := "llama2",
        base_url := some "http://localhost:11434",
        temperature := 7 / 10, max_tokens := some 2048 }

/-! ### ai_providers.py — `BaseAIProvider` history, adapters, factory -/

/-- An adapter instance: the provider it wraps plus its own
`conversation_history` (`BaseAIProvider.__init__` starts it empty). -/
structure Adapter where
  provider : AIProvider
  conversation_history : List String
deriving DecidableEq, Repr

/-- `BaseAIProvider.add_to_history`: appends the tagged user turn, then the
tagged assistant turn. -/
def add_to_history (hist : List String) (user_input ai_response : String) :
    List String :=
  hist ++ ["User: " ++ user_input, "Assistant: " ++ ai_response]

/-- `BaseAIProvider.clear_history`. -/
def Adapter.clear_history (ad : Adapter) : Adapter :=
  { ad with conversation_history := [] }

/-- `BaseAIProvider.get_history` (returns a copy of the list). -/
def Adapter.get_history (ad : Adapter) : List String :=
  ad.conversation_history

/-- `BaseAIProvider.get_context(limit=20)`: the last `limit` history entries
joined by newlines, or the empty string when the history is empty. -/
def get_context (hist : List String) (limit : Nat := 20) : String :=
  if hist = [] then ""
  else String.intercalate "\n" (hist.drop (hist.length - limit))

/-- The shared prompt wrapper of the Gemini / Anthropic / Ollama
`generate_response` bodies: prepend the recent context when it is nonempty
(Python truthiness of the context string). -/
def mkFullPrompt (hist : List String) (prompt : String) : String :=
  let context := get_context hist
  if context ≠ "" then
    "Previous conversation:\n" ++ context ++ "\n\nCurrent user input: "
      ++ prompt ++ "\n\nPlease respond naturally and helpfully:"
  else prompt

/-- The object returned by Gemini `model.generate_content`: `text` is `none`
for a missing/None text attribute; the empty string is likewise falsy. -/
structure GeminiResp where
  text : Option String
deriving DecidableEq, Repr

/-- `GeminiProvider.generate_response` of ai_providers.py.  `call` is the
outcome of `self.model.generate_content(full_prompt)` (`.error e` = the call
raised with message `str(e)`).  Returns the response string and the updated
history. -/
def gemini_generate_response (call : String → Except String GeminiResp)
    (hist : List String) (prompt : String) : String × List String :=
  match call (mkFullPrompt hist prompt) with
  | .ok resp =>
      let ai_response :=
        match resp.text with
        | some t => if t ≠ "" then t else "I\x27m sorry, I couldn\x27t generate a response."
        | none => "I\x27m sorry, I couldn\x27t generate a response."
      (ai_response, add_to_history hist prompt ai_response)
  | .error e =>
      ("I\x27m sorry, I encountered an error: Error with Gemini: " ++ e, hist)

/-- The observable outcome of `requests.post` to Ollama: the HTTP status code
and the `"response"` field of the parsed JSON body (`jsonResponse = .error e`
models `response.json()` raising; `.ok none` models a body without a
`"response"` key). -/
structure OllamaResp where
  status_code : Nat
  jsonResponse : Except String (Option String)
deriving Repr

/-- `OllamaProvider.generate_response` of ai_providers.py.  `post` is the
outcome of `requests.post(.../api/generate, ...)` on the full prompt
(`.error e` = the request raised with message `str(e)`).  Returns the
response string and the updated history. -/
def ollama_generate_response (post : String → Except String OllamaResp)
    (hist : List String) (prompt : String) : String × List String :=
  match post (mkFullPrompt hist prompt) with
  | .ok r =>
      if r.status_code = 200 then
        match r.jsonResponse with
        | .ok fld =>
            let ai_response := fld.getD "No response generated"
            (ai_response, add_to_history hist prompt ai_response)
        | .error e =>
            ("I\x27m sorry, I encountered an error: Error with Ollama: " ++ e, hist)
      else
        ("Error: Ollama server returned status " ++ toString r.status_code, hist)
  | .error e =>
      ("I\x27m sorry, I encountered an error: Error with Ollama: " ++ e, hist)

/-- The role-tagged message pairs `OpenAIProvider.generate_response` rebuilds
from the stored history: entries are taken two at a time
(`for i in range(0, len, 2): if i + 1 < len: ...`), stripping the
`"User: "` / `"Assistant: "` tags; a trailing unpaired entry falls outside the
`i + 1 < len` guard and is dropped. -/
def pairMsgs : List String → List (String × String)
  | u :: a :: rest =>
      ("user", u.replace "User: " "") :: ("assistant", a.replace "Assistant: " "")
        :: pairMsgs rest
  | _ => []

/-- The `messages` list `OpenAIProvider.generate_response` sends: the system
preamble, the replayed history pairs, then the current prompt. -/
def openai_build_messages (hist : List String) (prompt : String) :
    List (String × String) :=
  ("system", "You are a helpful AI assistant.") :: pairMsgs hist ++ [("user", prompt)]

/-- `AIProviderFactory.create_provider` of ai_providers.py: constructs the
adapter for `config.provider` — `BaseAIProvider.__init__` starts its
`conversation_history` empty — and runs the provider setup, whose outcome is
the oracle `setup` (`.error e` = the setup raised, e.g. a missing key or an
unreachable Ollama server); the enum argument is always a supported provider,
so the `ValueError` branch of the factory is unreachable here. -/
def create_provider (setup : AIProvider → Except String Unit)
    (config : ModelConfig) : Except String Adapter :=
  match setup config.provider with
  | .ok _ => .ok { provider := config.provider, conversation_history := [] }
  | .error e => .error e

/-! ### brain.py — `Brain` -/

/-- The mutable state brain.py touches: the process-wide
`Config.ACTIVE_MODEL` pointer, the orchestrator's own `self.config`, and the
active adapter `self.ai_provider`. -/
structure BrainSt where
  activeModel : AIProvider
  config : ModelConfig
  adapter : Adapter
deriving DecidableEq, Repr

/-- `Brain.switch_model` of brain.py.  Inside the `try` block the source
first calls `Config.switch_model(provider)` (which always succeeds for an
enum member and sets `ACTIVE_MODEL`), then reassigns `self.config`, and only
then attempts `AIProviderFactory.create_provider`; a setup failure is caught
and reported, after the first two mutations have already happened. -/
def Brain.switch_model (setup : AIProvider → Except String Unit)
    (b : BrainSt) (provider : AIProvider) : String × BrainSt :=
  let cfg := MODEL_CONFIGS provider
  match create_provider setup cfg with
  | .ok ad =>
      ("Switched to " ++ provider.value ++ " model: " ++ cfg.model_name,
       { activeModel := provider, config := cfg, adapter := ad })
  | .error e =>
      ("Failed to switch to " ++ provider.value ++ ": " ++ e,
       { activeModel := provider, config := cfg, adapter := b.adapter })

/-- The dictionary returned by `Brain.get_current_model_info`. -/
structure ModelInfo where
  provider : String
  model_name : String
  temperature : ℚ
  max_tokens : Option Nat
deriving DecidableEq, Repr

/-- `Brain.get_current_model_info` of brain.py: reads `self.config`. -/
def Brain.get_current_model_info (b : BrainSt) : ModelInfo :=
  { provider := b.config.provider.value, model_name := b.config.model_name,
    temperature := b.config.temperature, max_tokens := b.config.max_tokens }

/-- `Brain.get_history` of brain.py. -/
def Brain.get_history (b : BrainSt) : List String :=
  Adapter.get_history b.adapter

/-- Python truthiness of the optional `redirect_message` in
`if not is_relevant and redirect_message:`. -/
def optTruthy : Option String → Bool
  | some s => s ≠ ""
  | none => false

/-- The fixed apology of the `except` branch of `Brain.think`. -/
def brainApology : String :=
  "I\x27m sorry, I encountered an error while processing your request. Please try again."

/-- One call of the active adapter's `generate_response` as observed by
`Brain.think`: the returned string (or a raised exception) together with the
adapter history after the call. -/
inductive GenOutcome where
  | ok (resp : String) (hist : List String)
  | exn (e : String) (hist : List String)
deriving DecidableEq, Repr

/-- `Brain.think` of brain.py, with its three collaborators passed as
oracles: `classify` is the outcome of
`self.guardrails.check_query_relevance(user_prompt)` (instantiated by
`check_query_relevance` for concrete runs; `.error` = it raised), `compose`
the outcome of `self.guardrails.enhance_prompt_with_context(user_prompt)`,
and `gen` the behaviour of `self.ai_provider.generate_response` on the
composed prompt and current history.  Returns the reply string, the adapter
history after the call, and the number of `generate_response` invocations
(the call-count spy). -/
def Brain.think (classify : Except String (Bool × Option String))
    (compose : Except String String)
    (gen : String → List String → GenOutcome)
    (hist : List String) : String × List String × Nat :=
  match classify with
  | .error _ => (brainApology, hist, 0)
  | .ok (is_relevant, redirect_message) =>
    if !is_relevant && optTruthy redirect_message then
      (redirect_message.getD "", hist, 0)
    else
      match compose with
      | .error _ => (brainApology, hist, 0)
      | .ok enhanced =>
        match gen enhanced hist with
        | .ok resp h => (resp, h, 1)
        | .exn _ h => (brainApology, h, 1)

/-! ### Auxiliary definitions used by the statements below -/

/-- The apology criterion for a user-facing reply: it contains the word
"sorry" (case-insensitively), as every apology string of ai_providers.py
does. -/
def isApologetic (s : String) : Bool :=
  listContainsSub (pyLower s) ("sorry".toList)

/-- A run of `Brain.think` hit an exception on its executed path: the
classifier raised, or the guard let the prompt through and the composer
raised, or the composer succeeded and the adapter call raised. -/
def thinkPathError (classify : Except String (Bool × Option String))
    (compose : Except String String)
    (gen : String → List String → GenOutcome) (hist : List String) : Prop :=
  (∃ e, classify = .error e) ∨
  (∃ b m, classify = .ok (b, m) ∧ (!b && optTruthy m) = false ∧
    ((∃ e, compose = .error e) ∨
     (∃ p, compose = .ok p ∧ ∃ e h2, gen p hist = .exn e h2)))

/-- A message list consists exclusively of complete ("user", _),
("assistant", _) pairs, in that order. -/
def userAssistantPairs : List (String × String) → Bool
  | [] => true
  | ("user", _) :: ("assistant", _) :: rest => userAssistantPairs rest
  | _ => false

/-- A provider-setup oracle under which the Ollama server is unreachable and
every other provider initializes. -/
def ollamaDownSetup : AIProvider → Except String Unit
  | .ollama => .error "Failed to connect to Ollama: connection refused"
  | _ => .ok ()

/-- A brain state with OpenAI active and a nonempty conversation history. -/
def demoBrain : BrainSt :=
  { activeModel := .openai, config := MODEL_CONFIGS .openai,
    adapter := { provider := .openai,
                 conversation_history := ["User: hi", "Assistant: hello"] } }

/-- An Ollama backend answering every request with HTTP status 500. -/
def ollamaStatus500 : String → Except String OllamaResp :=
  fun _ => .ok { status_code := 500, jsonResponse := .ok none }

/-- An Ollama backend answering with HTTP 200 and a JSON body that lacks the
"response" key. -/
def ollamaNoField : String → Except String OllamaResp :=
  fun _ => .ok { status_code := 200, jsonResponse := .ok none }

/-! ### Helper lemmas -/

/-- `random.choice` of a nonempty pool yields an element of the pool. -/
theorem pyChoice_mem (pool : List String) (rng : Nat) (h : pool ≠ []) :
    pyChoice pool rng ∈ pool := by
  have hlen : 0 < pool.length := List.length_pos.mpr h
  have hlt : rng % pool.length < pool.length := Nat.mod_lt _ hlen
  unfold pyChoice
  rw [List.getD_eq_getElem?_getD, List.getElem?_eq_getElem hlt]
  exact List.getElem_mem hlt

/-- Every canned response of either pool is a nonempty (hence truthy)
string. -/
theorem pool_mem_ne_empty {s : String}
    (h : s ∈ no_data_responses ∨ s ∈ redirect_responses) : s ≠ "" := by
  rcases h with h | h <;> fin_cases h <;> decide

/-- Whenever `check_query_relevance` reports not-relevant, the message slot is
a truthy string drawn from one of the two pools. -/
theorem check_query_relevance_false_spec (files : List String) (rng : Nat)
    (input : String) (h : (check_query_relevance files rng input).1 = false) :
    ∃ s, (check_query_relevance files rng input).2 = some s ∧ s ≠ "" ∧
      (s ∈ no_data_responses ∨ s ∈ redirect_responses) := by
  revert h
  unfold check_query_relevance
  dsimp only
  split
  · intro _
    have hm : pyChoice no_data_responses rng ∈ no_data_responses :=
      pyChoice_mem _ _ (by decide)
    exact ⟨_, rfl, pool_mem_ne_empty (Or.inl hm), Or.inl hm⟩
  · split
    · intro _
      have hm : pyChoice redirect_responses rng ∈ redirect_responses :=
        pyChoice_mem _ _ (by decide)
      exact ⟨_, rfl, pool_mem_ne_empty (Or.inr hm), Or.inr hm⟩
    · split
      · intro h
        simp at h
      · intro _
        have hm : pyChoice redirect_responses rng ∈ redirect_responses :=
          pyChoice_mem _ _ (by decide)
        exact ⟨_, rfl, pool_mem_ne_empty (Or.inr hm), Or.inr hm⟩

/-- Zeta-reduced evaluation shape of `check_query_relevance`, used to drive
branch-by-branch rewriting. -/
theorem check_query_relevance_eq (files : List String) (rng : Nat)
    (input : String) :
    check_query_relevance files rng input =
      if files.isEmpty
          && !(bootstrapKeywords.any fun k => listContainsSub (pyLower input) k.toList) then
        (false, some (pyChoice no_data_responses rng))
      else if offTopicMatch (pyLower input) then
        (false, some (pyChoice redirect_responses rng))
      else if (data_keywords.any fun k => listContainsSub (pyLower input) k.toList)
          || !files.isEmpty then
        (true, none)
      else
        (false, some (pyChoice redirect_responses rng)) := rfl

/-- Every provider's stored configuration names that provider. -/
theorem provider_of_configs (p : AIProvider) : (MODEL_CONFIGS p).provider = p := by
  cases p <;> rfl

/-- A successfully created adapter wraps the configured provider and starts
with an empty history. -/
theorem create_provider_ok {setup : AIProvider → Except String Unit}
    {config : ModelConfig} {ad : Adapter}
    (h : create_provider setup config = .ok ad) :
    ad = { provider := config.provider, conversation_history := [] } := by
  revert h
  unfold create_provider
  cases setup config.provider <;> intro h <;> simp at h
  exact h.symm

/-- The replayed history consists exclusively of complete (user, assistant)
pairs, for every stored history. -/
theorem userAssistantPairs_pairMsgs :
    ∀ hist : List String, userAssistantPairs (pairMsgs hist) = true
  | [] => rfl
  | [_] => rfl
  | _ :: _ :: rest => by
      have ih := userAssistantPairs_pairMsgs rest
      simp [pairMsgs, userAssistantPairs, ih]

/-- Appending one entry to an even-length history does not change the replayed
pairs: the trailing unpaired entry is dropped. -/
theorem pairMsgs_append_even :
    ∀ hist : List String, hist.length % 2 = 0 → ∀ x,
      pairMsgs (hist ++ [x]) = pairMsgs hist
  | [], _, _ => rfl
  | [_], h, _ => by simp at h
  | _ :: _ :: rest, h, x => by
      have h2 : rest.length % 2 = 0 := by
        simp [List.length_cons] at h
        omega
      have ih := pairMsgs_append_even rest h2 x
      simp [pairMsgs, List.cons_append, ih]

/-! ### Claim theorems -/

/-- C10: for every input and dataset state, whenever `check_query_relevance`
returns `is_relevant = False` the accompanying message is a non-null, truthy
string drawn from one of the two fixed pools, so the
`not is_relevant and redirect_message` guard of `Brain.think` always fires on
a not-relevant input. -/
theorem c10_not_relevant_message_always_pooled (files : List String)
    (rng : Nat) (input : String)
    (h : (check_query_relevance files rng input).1 = false) :
    ∃ s, (check_query_relevance files rng input).2 = some s ∧ s ≠ "" ∧
      (s ∈ no_data_responses ∨ s ∈ redirect_responses) ∧
      optTruthy (check_query_relevance files rng input).2 = true := by
  obtain ⟨s, hs, hne, hmem⟩ := check_query_relevance_false_spec files rng input h
  exact ⟨s, hs, hne, hmem, by simp [hs, optTruthy, hne]⟩

/-- Witness for C10 at the concrete input "hello" with no files loaded. -/
theorem c10_not_relevant_message_always_pooled_witness :
    ∃ s, (check_query_relevance [] 0 "hello").2 = some s ∧ s ≠ "" ∧
      (s ∈ no_data_responses ∨ s ∈ redirect_responses) ∧
      optTruthy (check_query_relevance [] 0 "hello").2 = true :=
  c10_not_relevant_message_always_pooled [] 0 "hello" (by decide)

/-- C6: whenever the classifier reports not-relevant, `Brain.think` returns
the redirect string at once: the adapter history is returned unchanged and
the `generate_response` call count is 0. -/
theorem c6_not_relevant_short_circuits (files : List String) (rng : Nat)
    (input : String) (compose : Except String String)
    (gen : String → List String → GenOutcome) (hist : List String)
    (h : (check_query_relevance files rng input).1 = false) :
    ∃ s, (check_query_relevance files rng input).2 = some s ∧
      Brain.think (.ok (check_query_relevance files rng input)) compose gen hist
        = (s, hist, 0) := by
  obtain ⟨s, hs, hne, _⟩ := check_query_relevance_false_spec files rng input h
  refine ⟨s, hs, ?_⟩
  rcases hc : check_query_relevance files rng input with ⟨b, m⟩
  rw [hc] at h hs
  simp only at h hs
  subst h
  subst hs
  simp [Brain.think, optTruthy, hne]

/-- Witness for C6: off-topic input with no files loaded short-circuits a
spy adapter, leaving the history alone and never calling it. -/
theorem c6_not_relevant_short_circuits_witness :
    ∃ s, (check_query_relevance [] 0 "what\x27s the weather?").2 = some s ∧
      Brain.think (.ok (check_query_relevance [] 0 "what\x27s the weather?"))
          (.ok "composed") (fun _ h => .ok "reply" h) ["User: a", "Assistant: b"]
        = (s, ["User: a", "Assistant: b"], 0) :=
  c6_not_relevant_short_circuits [] 0 "what\x27s the weather?" (.ok "composed")
    (fun _ h => .ok "reply" h) ["User: a", "Assistant: b"] (by decide)

/-- C4: `Brain.think` is a total function into `String` (it cannot raise),
and whenever the executed path hits an exception from the classifier, the
composer, or the adapter, the returned string is the fixed generic apology. -/
theorem c4_think_converts_exceptions_to_apology
    (classify : Except String (Bool × Option String))
    (compose : Except String String)
    (gen : String → List String → GenOutcome) (hist : List String)
    (h : thinkPathError classify compose gen hist) :
    (Brain.think classify compose gen hist).1 = brainApology := by
  rcases h with ⟨e, he⟩ | ⟨b, m, hok, hguard, h2⟩
  · simp [Brain.think, he]
  · rcases h2 with ⟨e, he⟩ | ⟨p, hp, e, h2, hg⟩
    · simp [Brain.think, hok, hguard, he]
    · simp [Brain.think, hok, hguard, hp, hg]

/-- Witness for C4 at a concrete raising classifier. -/
theorem c4_think_converts_exceptions_to_apology_witness :
    (Brain.think (.error "boom") (.ok "p") (fun _ h => .ok "r" h) []).1
      = brainApology :=
  c4_think_converts_exceptions_to_apology (.error "boom") (.ok "p")
    (fun _ h => .ok "r" h) [] (Or.inl ⟨"boom", rfl⟩)

/-- C7: after every successful `switch_model`, `get_history` is empty — the
switch installs a freshly constructed adapter whose history starts empty,
whatever the history was before. -/
theorem c7_switch_success_fresh_history (setup : AIProvider → Except String Unit)
    (b : BrainSt) (p : AIProvider)
    (h : ∃ ad, create_provider setup (MODEL_CONFIGS p) = .ok ad) :
    Brain.get_history (Brain.switch_model setup b p).2 = [] := by
  obtain ⟨ad, had⟩ := h
  have hfresh := create_provider_ok had
  unfold Brain.switch_model
  dsimp only
  rw [had, hfresh]
  rfl

/-- Witness for C7: switching from a brain with nonempty history to a
successfully initializing provider leaves the history empty. -/
theorem c7_switch_success_fresh_history_witness :
    Brain.get_history
        (Brain.switch_model (fun _ => .ok ()) demoBrain .anthropic).2 = [] :=
  c7_switch_success_fresh_history (fun _ => .ok ()) demoBrain .anthropic ⟨_, rfl⟩

/-- C8: `clear_history` followed by `get_history` yields the empty sequence
for any adapter; and one successful `generate_response` call (Ollama model,
HTTP 200) appends exactly the tagged (user, assistant) pair to the existing
history, leaving all earlier entries unchanged. -/
theorem c8_history_roundtrip_and_pair_append :
    (∀ ad : Adapter, Adapter.get_history (Adapter.clear_history ad) = []) ∧
    (∀ (post : String → Except String OllamaResp) (hist : List String)
        (prompt : String) (r : OllamaResp) (fld : Option String),
        post (mkFullPrompt hist prompt) = .ok r → r.status_code = 200 →
        r.jsonResponse = .ok fld →
        ollama_generate_response post hist prompt
          = (fld.getD "No response generated",
             hist ++ ["User: " ++ prompt,
                      "Assistant: " ++ fld.getD "No response generated"])) := by
  constructor
  · intro ad; rfl
  · intro post hist prompt r fld hp h200 hj
    unfold ollama_generate_response
    rw [hp]
    simp [h200, hj, add_to_history]

/-- Witness for C8 at a concrete adapter and a concrete successful call. -/
theorem c8_history_roundtrip_and_pair_append_witness :
    Adapter.get_history (Adapter.clear_history
        { provider := .openai, conversation_history := ["User: hi"] }) = [] ∧
    ollama_generate_response (fun _ => .ok { status_code := 200, jsonResponse := .ok (some "fine") })
        ["User: a", "Assistant: b"] "how are you?"
      = ("fine", ["User: a", "Assistant: b", "User: how are you?", "Assistant: fine"]) :=
  ⟨c8_history_roundtrip_and_pair_append.1
      { provider := .openai, conversation_history := ["User: hi"] },
   c8_history_roundtrip_and_pair_append.2
      (fun _ => .ok { status_code := 200, jsonResponse := .ok (some "fine") })
      ["User: a", "Assistant: b"] "how are you?"
      { status_code := 200, jsonResponse := .ok (some "fine") } (some "fine")
      rfl rfl rfl⟩

/-- C9: the OpenAI message reconstruction never crashes: for every stored
history the rebuilt list is the system preamble, a run of complete
(user, assistant) pairs, then the current prompt; and a trailing unpaired
entry appended to a well-paired history is ignored. -/
theorem c9_openai_rebuild_pairs (hist : List String) (prompt : String) :
    (∃ mid, openai_build_messages hist prompt
        = ("system", "You are a helpful AI assistant.") :: mid ++ [("user", prompt)]
      ∧ userAssistantPairs mid = true) ∧
    (∀ x, hist.length % 2 = 0 →
      openai_build_messages (hist ++ [x]) prompt
        = openai_build_messages hist prompt) := by
  constructor
  · exact ⟨pairMsgs hist, rfl, userAssistantPairs_pairMsgs hist⟩
  · intro x hx
    unfold openai_build_messages
    rw [pairMsgs_append_even hist hx x]

/-- Witness for C9: an odd-length history (one stray trailing entry) rebuilds
to the same messages as the even-length history it extends. -/
theorem c9_openai_rebuild_pairs_witness :
    (∃ mid, openai_build_messages ["User: hi", "Assistant: yo", "stray"] "q"
        = ("system", "You are a helpful AI assistant.") :: mid ++ [("user", "q")]
      ∧ userAssistantPairs mid = true) ∧
    openai_build_messages ["User: hi", "Assistant: yo", "stray"] "q"
      = openai_build_messages ["User: hi", "Assistant: yo"] "q" :=
  ⟨(c9_openai_rebuild_pairs ["User: hi", "Assistant: yo", "stray"] "q").1,
   (c9_openai_rebuild_pairs ["User: hi", "Assistant: yo"] "q").2 "stray" rfl⟩

/-- C1 counterexample: with a nonempty-history OpenAI brain and an
unreachable Ollama server, `switch_model` fails, the adapter is indeed left
unchanged — but `Config.ACTIVE_MODEL` and the configuration reported by
`get_current_model_info` already name ollama, not the previously-active
openai: the active pointer moved despite the failure. -/
theorem c1_failed_switch_counterexample :
    (Brain.switch_model ollamaDownSetup demoBrain .ollama).1
      = "Failed to switch to ollama: Failed to connect to Ollama: connection refused" ∧
    (Brain.switch_model ollamaDownSetup demoBrain .ollama).2.adapter
      = demoBrain.adapter ∧
    demoBrain.activeModel = AIProvider.openai ∧
    (Brain.switch_model ollamaDownSetup demoBrain .ollama).2.activeModel
      = AIProvider.ollama ∧
    (Brain.get_current_model_info
        (Brain.switch_model ollamaDownSetup demoBrain .ollama).2).provider
      = "ollama" ∧
    AIProvider.ollama ≠ AIProvider.openai :=
  ⟨rfl, rfl, rfl, rfl, rfl, by decide⟩

/-- C1 (amended): if `switch_model(provider_id)` fails because the new
provider cannot initialize, the previously-active adapter is left unchanged
and a failure string is returned, but the active provider pointer and the
configuration reported by `get_current_model_info` already name the *new*
provider: the source updates `Config.ACTIVE_MODEL` and `self.config` before
attempting to construct the new adapter, so only the adapter is guarded by
success. -/
theorem c1_failed_switch_moves_pointer_keeps_adapter
    (setup : AIProvider → Except String Unit) (b : BrainSt) (p : AIProvider)
    (e : String) (h : setup p = .error e) :
    Brain.switch_model setup b p
      = ("Failed to switch to " ++ p.value ++ ": " ++ e,
         { activeModel := p, config := MODEL_CONFIGS p, adapter := b.adapter }) := by
  unfold Brain.switch_model create_provider
  dsimp only
  rw [provider_of_configs, h]

/-- Witness for amended C1 at a concrete failing switch. -/
theorem c1_failed_switch_moves_pointer_keeps_adapter_witness :
    Brain.switch_model ollamaDownSetup demoBrain .ollama
      = ("Failed to switch to " ++ AIProvider.ollama.value
           ++ ": " ++ "Failed to connect to Ollama: connection refused",
         { activeModel := .ollama, config := MODEL_CONFIGS .ollama,
           adapter := demoBrain.adapter }) :=
  c1_failed_switch_moves_pointer_keeps_adapter ollamaDownSetup demoBrain .ollama
    "Failed to connect to Ollama: connection refused" rfl

/-- C2 counterexample: "what's the weather?" matches the off-topic weather
pattern, yet with no dataset loaded `check_query_relevance` answers with a
message from the *no-data* pool, not the redirect pool: rule 1 preempts the
off-topic rule. -/
theorem c2_offtopic_counterexample :
    offTopicMatch (pyLower "what\x27s the weather?") = true ∧
    check_query_relevance [] 0 "what\x27s the weather?"
      = (false, some "I don\x27t see any data files loaded yet. Would you like to load a file from the data folder?") ∧
    "I don\x27t see any data files loaded yet. Would you like to load a file from the data folder?"
      ∈ no_data_responses ∧
    "I don\x27t see any data files loaded yet. Would you like to load a file from the data folder?"
      ∉ redirect_responses :=
  ⟨by decide, by decide, by decide, by decide⟩

/-- C2 (amended): for every input matching an off-topic pattern,
`check_query_relevance` returns not-relevant with a message from the fixed
redirect pool, *provided* the no-data rule does not fire first — i.e. when
some file is loaded or the input contains a bootstrapping keyword
(load/file/data); with no files and no bootstrapping keyword, the answer is
still not-relevant but the message comes from the no-data pool. -/
theorem c2_offtopic_yields_redirect_pool (files : List String) (rng : Nat)
    (input : String)
    (hoff : offTopicMatch (pyLower input) = true)
    (hboot : files ≠ [] ∨
      (bootstrapKeywords.any fun k =>
        listContainsSub (pyLower input) k.toList) = true) :
    check_query_relevance files rng input
      = (false, some (pyChoice redirect_responses rng)) ∧
    pyChoice redirect_responses rng ∈ redirect_responses := by
  refine ⟨?_, pyChoice_mem _ _ (by decide)⟩
  have hcond : (files.isEmpty
      && !(bootstrapKeywords.any fun k =>
            listContainsSub (pyLower input) k.toList)) = false := by
    rcases hboot with h | h
    · have hne : files.isEmpty = false := by
        cases files with
        | nil => exact absurd rfl h
        | cons a t => rfl
      rw [hne]
      rfl
    · rw [h]
      simp
  rw [check_query_relevance_eq, hcond, if_neg (by simp), hoff, if_pos rfl]

/-- Witness for amended C2: the weather question with a file loaded gets a
redirect-pool message. -/
theorem c2_offtopic_yields_redirect_pool_witness :
    check_query_relevance ["sales_data.csv"] 0 "what\x27s the weather?"
      = (false, some (pyChoice redirect_responses 0)) ∧
    pyChoice redirect_responses 0 ∈ redirect_responses :=
  c2_offtopic_yields_redirect_pool ["sales_data.csv"] 0 "what\x27s the weather?"
    (by decide) (Or.inl (by decide))

/-- C3 counterexample: "data code" contains both a programming term and the
substring "data", yet the programming pattern fires (the lookahead only
scans *after* the matched term) and the input is classified not-relevant,
with a file loaded and no other pattern involved. -/
theorem c3_data_before_term_counterexample :
    listContainsSub (pyLower "data code") ("data".toList) = true ∧
    listContainsSub (pyLower "data code") ("code".toList) = true ∧
    simpleOffTopicMatch (pyLower "data code") = false ∧
    progOffTopicMatch (pyLower "data code") = true ∧
    check_query_relevance ["sales_data.csv"] 0 "data code"
      = (false,
         some "I\x27m here to help you analyze and understand your data files. Let\x27s focus on the data you\x27ve loaded.") :=
  ⟨by decide, by decide, by decide, by decide, by decide⟩

/-- C3 (amended): the programming off-topic rule is exempted only when
"data" occurs *after* the matched programming term (the negative lookahead
`(?!.*data)` scans forward from the match, and `.` does not cross a
newline); "data" occurring only before the term does not prevent the rule
from firing.  For every input containing the substring "data" on which no
off-topic pattern fires — in particular when "data" follows every
programming-term occurrence — `check_query_relevance` returns relevant with
no message. -/
theorem c3_data_present_no_pattern_relevant (files : List String) (rng : Nat)
    (input : String)
    (hdata : listContainsSub (pyLower input) ("data".toList) = true)
    (hoff : offTopicMatch (pyLower input) = false) :
    check_query_relevance files rng input = (true, none) := by
  have hboot : (bootstrapKeywords.any fun k =>
      listContainsSub (pyLower input) k.toList) = true :=
    List.any_eq_true.mpr ⟨"data", by decide, hdata⟩
  have hkw : (data_keywords.any fun k =>
      listContainsSub (pyLower input) k.toList) = true :=
    List.any_eq_true.mpr ⟨"data", by decide, hdata⟩
  have hcond : (files.isEmpty
      && !(bootstrapKeywords.any fun k =>
            listContainsSub (pyLower input) k.toList)) = false := by
    rw [hboot]
    simp
  rw [check_query_relevance_eq, hcond, if_neg (by simp), hoff,
    if_neg (by simp), hkw]
  simp

/-- Witness for amended C3: "code data" (data after the term) is relevant. -/
theorem c3_data_present_no_pattern_relevant_witness :
    check_query_relevance [] 0 "code data" = (true, none) :=
  c3_data_present_no_pattern_relevant [] 0 "code data" (by decide) (by decide)

/-- C5 counterexample: a non-success HTTP status from Ollama yields
"Error: Ollama server returned status 500" — a string with no apology in it —
and an HTTP-200 body lacking the "response" field is treated as a
*successful* generation ("No response generated", appended to history), not
as a failure embedding error text. -/
theorem c5_not_always_apologetic_counterexample :
    ollama_generate_response ollamaStatus500 [] "hello"
      = ("Error: Ollama server returned status 500", []) ∧
    isApologetic "Error: Ollama server returned status 500" = false ∧
    ollama_generate_response ollamaNoField [] "hello"
      = ("No response generated",
         ["User: hello", "Assistant: No response generated"]) :=
  ⟨by decide, by decide, by decide⟩

/-- C5 (amended): `generate_response` never raises (it is a total function
into `String`); on a raised backend exception — network, auth, malformed
JSON — it returns the apologetic string "I'm sorry, I encountered an
error: ..." embedding the underlying error text (shown for the Ollama and
Gemini adapters); but a non-success HTTP status from Ollama returns the
non-apologetic "Error: Ollama server returned status N", and a missing
response field under HTTP 200 is treated as a successful generation. -/
theorem c5_fail_soft_characterization :
    (∀ (post : String → Except String OllamaResp) (hist : List String)
        (prompt e : String), post (mkFullPrompt hist prompt) = .error e →
        ollama_generate_response post hist prompt
          = ("I\x27m sorry, I encountered an error: Error with Ollama: " ++ e, hist)) ∧
    (∀ (post : String → Except String OllamaResp) (hist : List String)
        (prompt : String) (r : OllamaResp),
        post (mkFullPrompt hist prompt) = .ok r → r.status_code ≠ 200 →
        ollama_generate_response post hist prompt
          = ("Error: Ollama server returned status " ++ toString r.status_code, hist)) ∧
    (∀ (post : String → Except String OllamaResp) (hist : List String)
        (prompt e : String) (r : OllamaResp),
        post (mkFullPrompt hist prompt) = .ok r → r.status_code = 200 →
        r.jsonResponse = .error e →
        ollama_generate_response post hist prompt
          = ("I\x27m sorry, I encountered an error: Error with Ollama: " ++ e, hist)) ∧
    (∀ (call : String → Except String GeminiResp) (hist : List String)
        (prompt e : String), call (mkFullPrompt hist prompt) = .error e →
        gemini_generate_response call hist prompt
          = ("I\x27m sorry, I encountered an error: Error with Gemini: " ++ e, hist)) := by
  refine ⟨?_, ?_, ?_, ?_⟩
  · intro post hist prompt e h
    unfold ollama_generate_response
    rw [h]
  · intro post hist prompt r h h200
    unfold ollama_generate_response
    rw [h]
    simp [h200]
  · intro post hist prompt e r h h200 hj
    unfold ollama_generate_response
    rw [h]
    simp [h200, hj]
  · intro call hist prompt e h
    unfold gemini_generate_response
    rw [h]

/-- Witness for amended C5 at concrete raising backends. -/
theorem c5_fail_soft_characterization_witness :
    ollama_generate_response (fun _ => .error "timeout") [] "hi"
      = ("I\x27m sorry, I encountered an error: Error with Ollama: " ++ "timeout", []) ∧
    gemini_generate_response (fun _ => .error "401 unauthorized") [] "hi"
      = ("I\x27m sorry, I encountered an error: Error with Gemini: " ++ "401 unauthorized", []) :=
  ⟨c5_fail_soft_characterization.1 (fun _ => .error "timeout") [] "hi" "timeout" rfl,
   c5_fail_soft_characterization.2.2.2 (fun _ => .error "401 unauthorized") [] "hi"
     "401 unauthorized" rfl⟩
